import Mathlib

/-!
Verification of the fold-construction and data-loading logic of
`problem.py` (California Winter Extreme Rainfall Prediction).

The embedding follows the source:

* `get_cv(X, y)` builds a `groups` array (initialised to zeros) by the loop
  `for g in range(n_members): groups[i : i + t_size] = g; i += t_size`
  with `t_size = 1155` and `n_members = int(y.size / t_size)`, then returns
  `LeaveOneGroupOut().split(X_cv, y, groups)` where
  `X_cv = np.zeros((y.shape[0], 2))`.
* `LeaveOneGroupOut.split` (scikit-learn) iterates over the sorted unique
  group values; it raises `ValueError` when there are fewer than two unique
  groups, and otherwise yields, for each unique group value `g` in increasing
  order, the pair (indices with group different from `g`, indices with group
  equal to `g`).
* `_read_data(path, f_prefix)` opens the three NetCDF files
  `{f_prefix}_TS.nc`, `{f_prefix}_PSL.nc`, `{f_prefix}_TMQ.nc`, stacks the
  `(ens, time)` dimensions of each variable into a single `enstime` sample
  dimension (C order: sample `s` corresponds to ensemble `s / n_time` and
  time `s % n_time`), transposes to `(enstime, lat, lon)`, merges the three
  variables (an error if the dimension extents conflict), reads the CSV file
  `{f_prefix}_precip_90.csv` indexed by "Year", and concatenates its data
  columns in file order into the label vector.

Arrays are modelled as index functions with explicit extents; fallible
operations return `Except String`.
-/

namespace CaliforniaRainfall

/-- The loop of `get_cv` that fills the `groups` array: starting from
`i = 0` and `groups = np.zeros(y.shape)`, each of the `m` iterations assigns
the block `groups[i : i + 1155] = g` (clamped to the array length `N`, as
numpy slice assignment is) and advances `i` by `1155`.  The state is the
pair (current `i`, contents of `groups` as an index function). -/
def groupsLoop (N : ℕ) (m : ℕ) : ℕ × (ℕ → ℕ) :=
  (List.range m).foldl
    (fun (st : ℕ × (ℕ → ℕ)) g =>
      (st.1 + 1155, fun j => if st.1 ≤ j ∧ j < st.1 + 1155 ∧ j < N then g else st.2 j))
    ((0 : ℕ), (fun _ => (0 : ℕ)))

/-- The `groups` array computed by `get_cv` for a label vector of length `N`:
the loop runs for `n_members = int(y.size / 1155)` iterations. -/
def get_cv_groups (N : ℕ) : ℕ → ℕ :=
  (groupsLoop N (N / 1155)).2

/-- Sorted unique values of a list of naturals, as computed by `np.unique`
inside `LeaveOneGroupOut`: the values of the list, listed in increasing
order without repetition. -/
def uniqueSorted (l : List ℕ) : List ℕ :=
  (List.range (l.foldr max 0 + 1)).filter (fun g => decide (g ∈ l))

/-- `LeaveOneGroupOut().split(X, y, groups)` (scikit-learn), materialised:
iterating the generator raises `ValueError` when the groups array has fewer
than two unique values (this also covers the zero-sample check of
`check_array`); otherwise it yields, for each unique group value `g` in
increasing order, the pair of index arrays
(`indices with group != g`, `indices with group == g`).  The `y` argument is
accepted and ignored, as in the library. -/
def leaveOneGroupOutSplit {γ α : Type} (X : List γ) (y : List α) (groups : ℕ → ℕ) :
    Except String (List (List ℕ × List ℕ)) :=
  if (uniqueSorted ((List.range X.length).map groups)).length ≤ 1 then
    Except.error "ValueError: The groups parameter contains fewer than 2 unique groups"
  else
    Except.ok ((uniqueSorted ((List.range X.length).map groups)).map (fun g =>
      ((List.range X.length).filter (fun i => groups i != g),
       (List.range X.length).filter (fun i => groups i == g))))

/-- `get_cv(X, y)` from `problem.py`: builds the `groups` array with
`get_cv_groups`, replaces `X` by `X_cv = np.zeros((y.shape[0], 2))`, and
returns `LeaveOneGroupOut().split(X_cv, y, groups)`. -/
def get_cv {β α : Type} (X : List β) (y : List α) :
    Except String (List (List ℕ × List ℕ)) :=
  leaveOneGroupOutSplit (List.replicate y.length ((0 : ℤ), (0 : ℤ))) y
    (get_cv_groups y.length)

/-- One NetCDF variable as opened by `xr.open_dataset`: a numeric field over
the four dimensions `(ens, time, lat, lon)`, modelled as extents plus an
index function. -/
structure DataArrayNC (α : Type) where
  n_ens : ℕ
  n_time : ℕ
  n_lat : ℕ
  n_lon : ℕ
  val : ℕ → ℕ → ℕ → ℕ → α

/-- A variable after `.stack(enstime=("ens", "time")).transpose("enstime",
"lat", "lon")`: the `(ens, time)` dimensions are flattened (C order) into one
sample dimension and the dimension order is (sample, lat, lon). -/
structure StackedVar (α : Type) where
  n_sample : ℕ
  n_lat : ℕ
  n_lon : ℕ
  val : ℕ → ℕ → ℕ → α

/-- `ds[data_var].stack(enstime=("ens", "time")).transpose("enstime", "lat",
"lon")`: sample `s` corresponds to ensemble member `s / n_time` at time step
`s % n_time`, so the (ensemble, time) order is preserved. -/
def stackTranspose {α : Type} (d : DataArrayNC α) : StackedVar α where
  n_sample := d.n_ens * d.n_time
  n_lat := d.n_lat
  n_lon := d.n_lon
  val := fun s la lo => d.val (s / d.n_time) (s % d.n_time) la lo

/-- The merged dataset returned by `xr.merge`: shared dimension extents and
one (name, field) entry per variable, ordered (sample, lat, lon). -/
structure Dataset (α : Type) where
  n_sample : ℕ
  n_lat : ℕ
  n_lon : ℕ
  vars : List (String × (ℕ → ℕ → ℕ → α))

/-- Dimension-extent agreement between two stacked variables. -/
def sameDims {α : Type} (a b : StackedVar α) : Bool :=
  a.n_sample == b.n_sample && a.n_lat == b.n_lat && a.n_lon == b.n_lon

/-- `xr.merge(X_coll)`: combines the named variables into one dataset, an
error when the dimension extents conflict (the variables carry no coordinate
labels, so alignment reduces to comparing extents). -/
def mergeStacked {α : Type} : List (String × StackedVar α) → Except String (Dataset α)
  | [] => Except.ok ⟨0, 0, 0, []⟩
  | (n, v) :: rest =>
    if rest.all (fun nv => sameDims v nv.2) then
      Except.ok ⟨v.n_sample, v.n_lat, v.n_lon,
        ((n, v) :: rest).map (fun nv => (nv.1, nv.2.val))⟩
    else
      Except.error "ValueError: conflicting sizes for dimension"

/-- A parsed CSV table after `pd.read_csv(..., index_col="Year")`: the data
columns (the index column excluded), in file order. -/
structure CsvTable (α : Type) where
  columns : List (String × List α)

/-- `np.concatenate([y[c] for c in y.columns])`: the data columns of the
table, concatenated in file order. -/
def concatColumns {α : Type} (t : CsvTable α) : List α :=
  (t.columns.map Prod.snd).flatten

/-- The contents of the `data` directory: what each file name resolves to,
`none` when the file does not exist. -/
structure DataEnv (α : Type) where
  ncFiles : String → Option (DataArrayNC α)
  csvFiles : String → Option (CsvTable α)

/-- `xr.open_dataset(nc_file, decode_times=False)`: a missing file raises
`FileNotFoundError`, propagated unmodified. -/
def openDataset {α : Type} (env : DataEnv α) (name : String) :
    Except String (DataArrayNC α) :=
  match env.ncFiles name with
  | some d => Except.ok d
  | none => Except.error ("FileNotFoundError: " ++ name)

/-- `pd.read_csv(...)`: a missing file raises `FileNotFoundError`,
propagated unmodified. -/
def readCsv {α : Type} (env : DataEnv α) (name : String) :
    Except String (CsvTable α) :=
  match env.csvFiles name with
  | some t => Except.ok t
  | none => Except.error ("FileNotFoundError: " ++ name)

/-- `_read_data(path, f_prefix)` from `problem.py`: opens the three NetCDF
files in the order TS, PSL, TMQ, stacks and transposes each variable, merges
them, reads the CSV label table, and returns the merged dataset together
with the concatenated label vector.  Every failure aborts immediately with
the underlying error and no partial result. -/
def _read_data {α : Type} (env : DataEnv α) ( f_prefix : String) :
    Except String (Dataset α × List α) := do
  let dsTS ← openDataset env ( f_prefix ++ "_TS.nc")
  let dsPSL ← openDataset env ( f_prefix ++ "_PSL.nc")
  let dsTMQ ← openDataset env ( f_prefix ++ "_TMQ.nc")
  let X_coll := [("TS", stackTranspose dsTS), ("PSL", stackTranspose dsPSL),
                 ("TMQ", stackTranspose dsTMQ)]
  let X_ds ← mergeStacked X_coll
  let y ← readCsv env ( f_prefix ++ "_precip_90.csv")
  pure (X_ds, concatColumns y)

/-- `get_train_data(path)`: reads the training file set. -/
def get_train_data {α : Type} (env : DataEnv α) : Except String (Dataset α × List α) :=
  _read_data env "train"

/-- `get_test_data(path)`: reads the test file set. -/
def get_test_data {α : Type} (env : DataEnv α) : Except String (Dataset α × List α) :=
  _read_data env "test"

/-- A small concrete environment with no files, used as a test fixture. -/
def envEmpty : DataEnv ℕ := ⟨fun _ => none, fun _ => none⟩

/-- A one-point gridded variable, used as a test fixture. -/
def dSmall : DataArrayNC ℕ := ⟨1, 1, 1, 1, fun _ _ _ _ => 0⟩

/-- A gridded variable with a conflicting latitude extent. -/
def dWide : DataArrayNC ℕ := ⟨1, 1, 2, 1, fun _ _ _ _ => 0⟩

/-- A two-column label table, used as a test fixture. -/
def tblSmall : CsvTable ℕ := ⟨[("a", [1, 0]), ("b", [1])]⟩

/-- An environment where every file resolves, used as a test fixture. -/
def envFull : DataEnv ℕ := ⟨fun _ => some dSmall, fun _ => some tblSmall⟩

/-- An environment whose PSL file has a conflicting latitude extent. -/
def envMismatch : DataEnv ℕ :=
  ⟨fun n => if n = "t_PSL.nc" then some dWide else some dSmall, fun _ => none⟩

/-- The dataset produced from `envFull`, used as a test fixture. -/
def dsFull : Dataset ℕ :=
  ⟨dSmall.n_ens * dSmall.n_time, dSmall.n_lat, dSmall.n_lon,
   [("TS", (stackTranspose dSmall).val), ("PSL", (stackTranspose dSmall).val),
    ("TMQ", (stackTranspose dSmall).val)]⟩

lemma groupsLoop_succ (N m : ℕ) :
    groupsLoop N (m + 1) =
      ((groupsLoop N m).1 + 1155,
       fun j => if (groupsLoop N m).1 ≤ j ∧ j < (groupsLoop N m).1 + 1155 ∧ j < N
                then m else (groupsLoop N m).2 j) := by
  unfold groupsLoop
  rw [List.range_succ, List.foldl_append]
  rfl

lemma groupsLoop_spec (N : ℕ) :
    ∀ m, m ≤ N / 1155 →
      (groupsLoop N m).1 = m * 1155 ∧
      ∀ j, (groupsLoop N m).2 j = if j < m * 1155 then j / 1155 else 0 := by
  intro m
  induction m with
  | zero =>
    intro _
    constructor
    · rfl
    · intro j
      simp [groupsLoop]
  | succ m ih =>
    intro hm
    obtain ⟨ih1, ih2⟩ := ih (Nat.le_of_succ_le hm)
    have hdm : (N / 1155) * 1155 ≤ N := Nat.div_mul_le_self N 1155
    have hmul : (m + 1) * 1155 ≤ (N / 1155) * 1155 := Nat.mul_le_mul_right _ hm
    constructor
    · rw [groupsLoop_succ, ih1]
      omega
    · intro j
      rw [groupsLoop_succ]
      simp only [ih1, ih2 j]
      split_ifs <;> omega

/-- Closed form of the group assignment: sample `i` is assigned group
`i / 1155` when it lies inside one of the `N / 1155` full blocks, and keeps
the initial value `0` otherwise. -/
lemma get_cv_groups_eq (N i : ℕ) :
    get_cv_groups N i = if i < (N / 1155) * 1155 then i / 1155 else 0 :=
  (groupsLoop_spec N (N / 1155) le_rfl).2 i

lemma listFoldrMax_le {l : List ℕ} {b : ℕ} (h : ∀ x ∈ l, x ≤ b) :
    l.foldr max 0 ≤ b := by
  induction l with
  | nil => simp
  | cons a t ih =>
    simp only [List.foldr_cons]
    have ha := h a (List.mem_cons_self a t)
    have ht := ih (fun x hx => h x (List.mem_cons_of_mem a hx))
    omega

lemma le_listFoldrMax {l : List ℕ} {x : ℕ} (h : x ∈ l) :
    x ≤ l.foldr max 0 := by
  induction l with
  | nil => cases h
  | cons a t ih =>
    simp only [List.foldr_cons]
    rcases List.mem_cons.mp h with rfl | hx
    · omega
    · have := ih hx
      omega

lemma uniqueSorted_length_le_one {l : List ℕ} (h : ∀ x ∈ l, x = 0) :
    (uniqueSorted l).length ≤ 1 := by
  have hmax : l.foldr max 0 = 0 :=
    Nat.le_zero.mp (listFoldrMax_le (fun x hx => Nat.le_zero.mpr (h x hx)))
  unfold uniqueSorted
  rw [hmax]
  exact le_trans (List.length_filter_le _ _) (by simp)

/-- When a label vector yields at most one full block, every entry of the
groups array is `0` and `LeaveOneGroupOut` refuses to split. -/
lemma get_cv_error_of_few_groups {β α : Type} (X : List β) (y : List α)
    (h : y.length / 1155 ≤ 1) :
    ∃ e, get_cv X y = Except.error e := by
  unfold get_cv leaveOneGroupOutSplit
  rw [List.length_replicate]
  have hz : ∀ x ∈ (List.range y.length).map (get_cv_groups y.length), x = 0 := by
    intro x hx
    obtain ⟨i, _, rfl⟩ := List.mem_map.mp hx
    rw [get_cv_groups_eq]
    have hdm : (y.length / 1155) * 1155 ≤ 1155 := by omega
    split_ifs with hi
    · omega
    · rfl
  rw [if_pos (uniqueSorted_length_le_one hz)]
  exact ⟨_, rfl⟩

/-- For at least one full block, the unique sorted group values are exactly
`0, 1, ..., N / 1155 - 1`. -/
lemma uniqueSorted_groups (N : ℕ) (h : 1 ≤ N / 1155) :
    uniqueSorted ((List.range N).map (get_cv_groups N)) = List.range (N / 1155) := by
  have hdm : (N / 1155) * 1155 ≤ N := Nat.div_mul_le_self N 1155
  have hmem : ∀ g, g < N / 1155 → g ∈ (List.range N).map (get_cv_groups N) := by
    intro g hg
    refine List.mem_map.mpr ⟨g * 1155, List.mem_range.mpr (by omega), ?_⟩
    rw [get_cv_groups_eq, if_pos (by omega)]
    omega
  have hmax : ((List.range N).map (get_cv_groups N)).foldr max 0 = N / 1155 - 1 := by
    apply le_antisymm
    · apply listFoldrMax_le
      intro x hx
      obtain ⟨i, hi, rfl⟩ := List.mem_map.mp hx
      rw [List.mem_range] at hi
      rw [get_cv_groups_eq]
      split_ifs with hlt
      · omega
      · omega
    · exact le_listFoldrMax (hmem (N / 1155 - 1) (by omega))
  unfold uniqueSorted
  rw [hmax]
  have h1 : N / 1155 - 1 + 1 = N / 1155 := by omega
  rw [h1]
  apply List.filter_eq_self.mpr
  intro g hg
  rw [List.mem_range] at hg
  exact decide_eq_true (hmem g hg)

/-- When the label vector provides at least two full blocks, `get_cv`
succeeds and yields one (train, test) pair per group value, in increasing
group order. -/
lemma get_cv_ok {β α : Type} (X : List β) (y : List α) (h : 2 ≤ y.length / 1155) :
    get_cv X y = Except.ok ((List.range (y.length / 1155)).map (fun g =>
      ((List.range y.length).filter (fun i => get_cv_groups y.length i != g),
       (List.range y.length).filter (fun i => get_cv_groups y.length i == g)))) := by
  unfold get_cv leaveOneGroupOutSplit
  rw [List.length_replicate, uniqueSorted_groups y.length (by omega)]
  rw [if_neg (by simp; omega)]

lemma length_filter_div_range (g : ℕ) :
    ∀ M, ((List.range M).filter (fun i => i / 1155 == g)).length
      = min M ((g + 1) * 1155) - min M (g * 1155) := by
  intro M
  induction M with
  | zero => simp
  | succ M ih =>
    rw [List.range_succ, List.filter_append, List.length_append, ih]
    by_cases hM : M / 1155 = g
    · have hf : List.filter (fun i => i / 1155 == g) [M] = [M] := by
        simp [List.filter, hM]
      rw [hf]
      simp only [List.length_singleton]
      omega
    · have hb : (M / 1155 == g) = false := beq_eq_false_iff_ne.mpr hM
      have hf : List.filter (fun i => i / 1155 == g) [M] = [] := by
        simp [List.filter, hb]
      rw [hf]
      simp only [List.length_nil]
      omega

lemma filter_length_compl {α : Type} (p : α → Bool) (l : List α) :
    (l.filter p).length + (l.filter (fun a => !(p a))).length = l.length := by
  induction l with
  | nil => rfl
  | cons a t ih =>
    cases hp : p a <;>
      simp only [List.filter, hp, Bool.not_false, Bool.not_true, List.length_cons] <;>
      omega

/-- C1 counterexample: for `N = 2311` (one remainder sample beyond two full
blocks) the remainder index `2310` is assigned group `0`, not the last full
group index `2311 / 1155 - 1 = 1` as the claim states: the loop never
touches indices beyond `n_members * 1155`, so they keep the `np.zeros`
initial value. -/
theorem get_cv_groups_remainder_ne_last :
    get_cv_groups 2311 2310 = 0 ∧ get_cv_groups 2311 2310 ≠ 2311 / 1155 - 1 := by
  have h : get_cv_groups 2311 2310 = 0 := by
    rw [get_cv_groups_eq]
    decide
  exact ⟨h, by rw [h]; decide⟩

/-- C1 (amended): in `get_cv`, every remainder sample (every index `i` with
`floor(N/1155) * 1155 ≤ i`) keeps the initial group id `0`, so remainder
samples are merged into the FIRST group's fold, not the last one. -/
theorem get_cv_groups_remainder_zero (N i : ℕ) (h : (N / 1155) * 1155 ≤ i) :
    get_cv_groups N i = 0 := by
  rw [get_cv_groups_eq, if_neg (by omega)]

/-- Witness for the amended C1 statement at `N = 2311`, `i = 2310`. -/
theorem get_cv_groups_remainder_zero_witness :
    (2311 / 1155) * 1155 ≤ 2310 ∧ get_cv_groups 2311 2310 = 0 :=
  ⟨by decide, get_cv_groups_remainder_zero 2311 2310 (by decide)⟩

/-- C5 counterexample: for `N = 1156` the sample `i = 1155` is assigned
group `0` rather than `floor(1155 / 1155) = 1`: the group id equals
`floor(i / 1155)` only inside the full blocks. -/
theorem get_cv_groups_ne_floor_div :
    get_cv_groups 1156 1155 = 0 ∧ get_cv_groups 1156 1155 ≠ 1155 / 1155 := by
  have h : get_cv_groups 1156 1155 = 0 := by
    rw [get_cv_groups_eq]
    decide
  exact ⟨h, by rw [h]; decide⟩

/-- C5 (amended): in `get_cv`, the group id of sample `i` equals
`floor(i / 1155)` for every index `i` inside the full blocks, i.e. for
`i < floor(N/1155) * 1155`; indices beyond that bound keep the initial
group id `0`. -/
theorem get_cv_groups_full_block (N i : ℕ) (h : i < (N / 1155) * 1155) :
    get_cv_groups N i = i / 1155 := by
  rw [get_cv_groups_eq, if_pos h]

/-- Witness for the amended C5 statement at `N = 2310`, `i = 1157`. -/
theorem get_cv_groups_full_block_witness :
    1157 < (2310 / 1155) * 1155 ∧ get_cv_groups 2310 1157 = 1157 / 1155 :=
  ⟨by decide, get_cv_groups_full_block 2310 1157 (by decide)⟩

/-- C2 counterexample: for `N = 0` the fold sequence is not an empty
sequence that iterates without failing; iterating it raises `ValueError`
(the groups array has no, hence fewer than two, unique values). -/
theorem get_cv_nil_error :
    get_cv ([] : List ℕ) ([] : List ℕ) =
      Except.error "ValueError: The groups parameter contains fewer than 2 unique groups" :=
  rfl

/-- C2 (amended): for every label vector of length `N` with
`0 ≤ N < 1155`, `get_cv` yields no folds; iterating the returned generator
fails with a `ValueError` raised by `LeaveOneGroupOut` (fewer than two
unique groups), rather than terminating normally with zero folds. -/
theorem get_cv_error_of_short {β α : Type} (X : List β) (y : List α)
    (h : y.length < 1155) :
    ∃ e, get_cv X y = Except.error e :=
  get_cv_error_of_few_groups X y (by omega)

/-- Witness for the amended C2 statement at `N = 0`. -/
theorem get_cv_error_of_short_witness :
    ([] : List ℤ).length < 1155 ∧ ∃ e, get_cv ([] : List Bool) ([] : List ℤ) = Except.error e :=
  ⟨by decide, get_cv_error_of_short ([] : List Bool) ([] : List ℤ) (by decide)⟩

/-- C3 counterexample: for `N = 1155` the claim predicts exactly
`floor(1155/1155) = 1` fold, but iterating the result fails (a single
unique group), so no fold is produced. -/
theorem get_cv_one_group_no_fold :
    (List.replicate 1155 (0 : ℕ)).length / 1155 = 1 ∧
    (get_cv ([] : List Bool) (List.replicate 1155 (0 : ℕ))).isOk = false := by
  refine ⟨by rw [List.length_replicate], ?_⟩
  obtain ⟨e, he⟩ :=
    get_cv_error_of_few_groups ([] : List Bool) (List.replicate 1155 (0 : ℕ))
      (by rw [List.length_replicate])
  rw [he]
  rfl

/-- C3 (amended): for every label vector of length `N ≥ 2310` (at least two
groups), `get_cv` produces exactly `floor(N/1155)` (train, test) pairs, and
when `N` is exactly divisible by 1155 every test set has exactly 1155
elements.  (For `N` with `floor(N/1155) ≤ 1` iterating the result instead
raises `ValueError`.) -/
theorem get_cv_fold_count {β α : Type} (X : List β) (y : List α)
    (h : 2310 ≤ y.length) :
    ∃ folds, get_cv X y = Except.ok folds ∧
      folds.length = y.length / 1155 ∧
      (y.length % 1155 = 0 → ∀ f ∈ folds, f.2.length = 1155) := by
  have h2 : 2 ≤ y.length / 1155 := by omega
  refine ⟨_, get_cv_ok X y h2, by simp, ?_⟩
  intro hdvd f hf
  obtain ⟨g, hg, rfl⟩ := List.mem_map.mp hf
  rw [List.mem_range] at hg
  have hM : (y.length / 1155) * 1155 = y.length := by omega
  have hcong : ∀ i ∈ List.range y.length,
      (get_cv_groups y.length i == g) = (i / 1155 == g) := by
    intro i hi
    rw [List.mem_range] at hi
    rw [get_cv_groups_eq, if_pos (by omega)]
  show ((List.range y.length).filter (fun i => get_cv_groups y.length i == g)).length = 1155
  rw [List.filter_congr hcong, length_filter_div_range]
  omega

/-- Witness for the amended C3 statement at `N = 2310`. -/
theorem get_cv_fold_count_witness :
    ∃ folds, get_cv ([] : List Bool) (List.replicate 2310 (0 : ℕ)) = Except.ok folds ∧
      folds.length = (List.replicate 2310 (0 : ℕ)).length / 1155 ∧
      ((List.replicate 2310 (0 : ℕ)).length % 1155 = 0 →
        ∀ f ∈ folds, f.2.length = 1155) :=
  get_cv_fold_count ([] : List Bool) (List.replicate 2310 (0 : ℕ))
    (by rw [List.length_replicate])

/-- C4 counterexample: at `N = 1155` (which satisfies the claim's
hypothesis `N ≥ 1155`) no folds are produced at all — iterating the result
fails with `ValueError` — so the produced folds do not cover the index set
`{0, ..., N-1}`. -/
theorem get_cv_one_block_error :
    1155 ≤ (List.replicate 1155 (1 : ℕ)).length ∧
    (get_cv [(0 : ℤ)] (List.replicate 1155 (1 : ℕ))).isOk = false := by
  refine ⟨by rw [List.length_replicate], ?_⟩
  obtain ⟨e, he⟩ :=
    get_cv_error_of_few_groups [(0 : ℤ)] (List.replicate 1155 (1 : ℕ))
      (by rw [List.length_replicate])
  rw [he]
  rfl

/-- C4 (amended): for every label vector of length `N ≥ 2310` (at least two
groups; for `1155 ≤ N < 2310` iterating instead raises `ValueError`), the
folds of `get_cv` partition the index set: they are yielded in increasing
group order (the fold list is the map over `0, ..., floor(N/1155) - 1` of
(train = indices with a different group, test = indices with that group)),
every fold satisfies `len(train) + len(test) = N`, test sets are pairwise
disjoint, and every index below `N` occurs in some test set. -/
theorem get_cv_partition {β α : Type} (X : List β) (y : List α)
    (h : 2310 ≤ y.length) :
    ∃ folds, get_cv X y = Except.ok folds ∧
      folds = (List.range (y.length / 1155)).map (fun g =>
        ((List.range y.length).filter (fun i => get_cv_groups y.length i != g),
         (List.range y.length).filter (fun i => get_cv_groups y.length i == g))) ∧
      (∀ f ∈ folds, f.1.length + f.2.length = y.length) ∧
      List.Pairwise (fun f1 f2 => ∀ i, i ∈ f1.2 → i ∉ f2.2) folds ∧
      (∀ i, i < y.length → ∃ f ∈ folds, i ∈ f.2) := by
  have h2 : 2 ≤ y.length / 1155 := by omega
  refine ⟨_, get_cv_ok X y h2, rfl, ?_, ?_, ?_⟩
  · intro f hf
    obtain ⟨g, hg, rfl⟩ := List.mem_map.mp hf
    have hc := filter_length_compl (fun i => get_cv_groups y.length i == g)
      (List.range y.length)
    rw [List.length_range] at hc
    show ((List.range y.length).filter (fun i => get_cv_groups y.length i != g)).length
        + ((List.range y.length).filter (fun i => get_cv_groups y.length i == g)).length
        = y.length
    have hne : (fun i => get_cv_groups y.length i != g)
        = (fun i => !(get_cv_groups y.length i == g)) := rfl
    rw [hne]
    omega
  · rw [List.pairwise_map]
    refine (List.pairwise_lt_range (y.length / 1155)).imp ?_
    intro g1 g2 hg12 i hi1 hi2
    simp only [List.mem_filter, beq_iff_eq] at hi1 hi2
    omega
  · intro i hi
    refine ⟨_, List.mem_map.mpr ⟨get_cv_groups y.length i, List.mem_range.mpr ?_, rfl⟩, ?_⟩
    · rw [get_cv_groups_eq]
      split_ifs with hlt
      · omega
      · omega
    · simp only [List.mem_filter, List.mem_range]
      exact ⟨hi, beq_self_eq_true _⟩

/-- Witness for the amended C4 statement at `N = 2310`. -/
theorem get_cv_partition_witness :
    ∃ folds, get_cv [true] (List.replicate 2310 (0 : ℤ)) = Except.ok folds ∧
      folds = (List.range ((List.replicate 2310 (0 : ℤ)).length / 1155)).map (fun g =>
        ((List.range (List.replicate 2310 (0 : ℤ)).length).filter
            (fun i => get_cv_groups (List.replicate 2310 (0 : ℤ)).length i != g),
         (List.range (List.replicate 2310 (0 : ℤ)).length).filter
            (fun i => get_cv_groups (List.replicate 2310 (0 : ℤ)).length i == g))) ∧
      (∀ f ∈ folds, f.1.length + f.2.length = (List.replicate 2310 (0 : ℤ)).length) ∧
      List.Pairwise (fun f1 f2 => ∀ i, i ∈ f1.2 → i ∉ f2.2) folds ∧
      (∀ i, i < (List.replicate 2310 (0 : ℤ)).length → ∃ f ∈ folds, i ∈ f.2) :=
  get_cv_partition [true] (List.replicate 2310 (0 : ℤ))
    (by rw [List.length_replicate])

/-- C10: the folds produced by `get_cv(X, y)` depend only on the length of
`y`: the `X` argument is discarded (replaced by a zero array of shape
`(len(y), 2)`) and only `y.size` and `y.shape` enter the group
construction, so two calls with equal-length label vectors give identical
fold sequences. -/
theorem get_cv_depends_only_on_length {β1 β2 α1 α2 : Type}
    (X1 : List β1) (X2 : List β2) (y1 : List α1) (y2 : List α2)
    (h : y1.length = y2.length) :
    get_cv X1 y1 = get_cv X2 y2 := by
  unfold get_cv
  rw [h]
  rfl

/-- Witness for C10 with different feature arrays and label contents. -/
theorem get_cv_depends_only_on_length_witness :
    get_cv [true] (List.replicate 3 (0 : ℕ)) = get_cv ["a", "b"] (List.replicate 3 (5 : ℤ)) :=
  get_cv_depends_only_on_length [true] ["a", "b"] _ _ (by decide)

lemma exceptBind_ok {ε γ δ : Type} (a : γ) (f : γ → Except ε δ) :
    (Except.ok a >>= f) = f a := rfl

lemma exceptBind_error {ε γ δ : Type} (e : ε) (f : γ → Except ε δ) :
    ((Except.error e : Except ε γ) >>= f) = Except.error e := rfl

lemma bind_eq_ok {ε γ δ : Type} {e : Except ε γ} {f : γ → Except ε δ} {b : δ}
    (h : (e >>= f) = Except.ok b) : ∃ a, e = Except.ok a ∧ f a = Except.ok b := by
  cases e with
  | ok a => exact ⟨a, rfl, h⟩
  | error e =>
    rw [exceptBind_error] at h
    exact Except.noConfusion h

/-- C6: for every readable CSV table, the label vector returned by
`_read_data` is the concatenation of the table's data columns in file order,
so its length is the sum of the column lengths. -/
theorem read_data_labels_concat {α : Type} (env : DataEnv α) (p : String)
    (ds : Dataset α) (yv : List α) (tbl : CsvTable α)
    (hcsv : env.csvFiles (p ++ "_precip_90.csv") = some tbl)
    (hok : _read_data env p = Except.ok (ds, yv)) :
    yv = (tbl.columns.map Prod.snd).flatten ∧
    yv.length = (tbl.columns.map (fun c => c.2.length)).sum := by
  unfold _read_data at hok
  obtain ⟨dTS, hTS, hok⟩ := bind_eq_ok hok
  obtain ⟨dPSL, hPSL, hok⟩ := bind_eq_ok hok
  obtain ⟨dTMQ, hTMQ, hok⟩ := bind_eq_ok hok
  obtain ⟨X_ds, hmerge, hok⟩ := bind_eq_ok hok
  obtain ⟨tbl2, hcsv2, hok⟩ := bind_eq_ok hok
  unfold readCsv at hcsv2
  rw [hcsv] at hcsv2
  have htbl : tbl2 = tbl := by
    cases hcsv2
    rfl
  subst htbl
  have hyv : yv = concatColumns tbl2 := by
    cases hok
    rfl
  subst hyv
  refine ⟨rfl, ?_⟩
  unfold concatColumns
  rw [List.length_flatten, List.map_map]
  rfl

/-- Witness for C6 on a concrete two-column table. -/
theorem read_data_labels_concat_witness :
    ([1, 0, 1] : List ℕ) = (tblSmall.columns.map Prod.snd).flatten ∧
    ([1, 0, 1] : List ℕ).length = (tblSmall.columns.map (fun c => c.2.length)).sum :=
  read_data_labels_concat envFull "t" dsFull [1, 0, 1] tblSmall rfl rfl

/-- C7: when the three NetCDF files are readable and their stacked extents
agree, `_read_data` returns a dataset keyed by TS, PSL, TMQ in that order,
whose sample dimension has length `n_ens * n_time`, each variable being the
original field with `(ens, time)` flattened order-preservingly (sample `s`
maps to ensemble `s / n_time`, time `s % n_time`) and dimensions ordered
(sample, lat, lon). -/
theorem read_data_grid_stack {α : Type} (env : DataEnv α) (p : String)
    (dTS dPSL dTMQ : DataArrayNC α) (tbl : CsvTable α)
    (hTS : env.ncFiles (p ++ "_TS.nc") = some dTS)
    (hPSL : env.ncFiles (p ++ "_PSL.nc") = some dPSL)
    (hTMQ : env.ncFiles (p ++ "_TMQ.nc") = some dTMQ)
    (hcsv : env.csvFiles (p ++ "_precip_90.csv") = some tbl)
    (hd1 : sameDims (stackTranspose dTS) (stackTranspose dPSL) = true)
    (hd2 : sameDims (stackTranspose dTS) (stackTranspose dTMQ) = true) :
    _read_data env p = Except.ok
      (⟨dTS.n_ens * dTS.n_time, dTS.n_lat, dTS.n_lon,
        [("TS", fun s la lo => dTS.val (s / dTS.n_time) (s % dTS.n_time) la lo),
         ("PSL", fun s la lo => dPSL.val (s / dPSL.n_time) (s % dPSL.n_time) la lo),
         ("TMQ", fun s la lo => dTMQ.val (s / dTMQ.n_time) (s % dTMQ.n_time) la lo)]⟩,
       concatColumns tbl) := by
  simp only [_read_data, openDataset, readCsv, hTS, hPSL, hTMQ, hcsv, exceptBind_ok]
  simp only [mergeStacked, List.all_cons, List.all_nil, hd1, hd2, Bool.and_true,
    Bool.and_self, if_true]
  rfl

/-- Witness for C7 on a concrete environment of one-point variables. -/
theorem read_data_grid_stack_witness :
    _read_data envFull "t" = Except.ok
      (⟨dSmall.n_ens * dSmall.n_time, dSmall.n_lat, dSmall.n_lon,
        [("TS", fun s la lo => dSmall.val (s / dSmall.n_time) (s % dSmall.n_time) la lo),
         ("PSL", fun s la lo => dSmall.val (s / dSmall.n_time) (s % dSmall.n_time) la lo),
         ("TMQ", fun s la lo => dSmall.val (s / dSmall.n_time) (s % dSmall.n_time) la lo)]⟩,
       concatColumns tblSmall) :=
  read_data_grid_stack envFull "t" dSmall dSmall dSmall tblSmall rfl rfl rfl rfl rfl rfl

/-- C8: `_read_data` fails with a `FileNotFoundError` naming the first
missing file among TS, PSL, TMQ (opened in that order) and, when all three
are present but their extents conflict, with the merge `ValueError`; when
the merge succeeds and the CSV file is missing, with a `FileNotFoundError`
for it.  In every case the error is returned unmodified and no partial
result is produced. -/
theorem read_data_errors {α : Type} (env : DataEnv α) (p : String) :
    (env.ncFiles (p ++ "_TS.nc") = none →
      _read_data env p = Except.error ("FileNotFoundError: " ++ (p ++ "_TS.nc"))) ∧
    (∀ dTS, env.ncFiles (p ++ "_TS.nc") = some dTS →
      env.ncFiles (p ++ "_PSL.nc") = none →
      _read_data env p = Except.error ("FileNotFoundError: " ++ (p ++ "_PSL.nc"))) ∧
    (∀ dTS dPSL, env.ncFiles (p ++ "_TS.nc") = some dTS →
      env.ncFiles (p ++ "_PSL.nc") = some dPSL →
      env.ncFiles (p ++ "_TMQ.nc") = none →
      _read_data env p = Except.error ("FileNotFoundError: " ++ (p ++ "_TMQ.nc"))) ∧
    (∀ dTS dPSL dTMQ, env.ncFiles (p ++ "_TS.nc") = some dTS →
      env.ncFiles (p ++ "_PSL.nc") = some dPSL →
      env.ncFiles (p ++ "_TMQ.nc") = some dTMQ →
      (sameDims (stackTranspose dTS) (stackTranspose dPSL) = false ∨
       sameDims (stackTranspose dTS) (stackTranspose dTMQ) = false) →
      _read_data env p = Except.error "ValueError: conflicting sizes for dimension") ∧
    (∀ dTS dPSL dTMQ, env.ncFiles (p ++ "_TS.nc") = some dTS →
      env.ncFiles (p ++ "_PSL.nc") = some dPSL →
      env.ncFiles (p ++ "_TMQ.nc") = some dTMQ →
      sameDims (stackTranspose dTS) (stackTranspose dPSL) = true →
      sameDims (stackTranspose dTS) (stackTranspose dTMQ) = true →
      env.csvFiles (p ++ "_precip_90.csv") = none →
      _read_data env p = Except.error ("FileNotFoundError: " ++ (p ++ "_precip_90.csv"))) := by
  refine ⟨?_, ?_, ?_, ?_, ?_⟩
  · intro h1
    simp only [_read_data, openDataset, h1, exceptBind_error]
  · intro dTS h1 h2
    simp only [_read_data, openDataset, h1, h2, exceptBind_ok, exceptBind_error]
  · intro dTS dPSL h1 h2 h3
    simp only [_read_data, openDataset, h1, h2, h3, exceptBind_ok, exceptBind_error]
  · intro dTS dPSL dTMQ h1 h2 h3 hmm
    simp only [_read_data, openDataset, h1, h2, h3, exceptBind_ok]
    rcases hmm with hd | hd <;>
      simp only [mergeStacked, List.all_cons, List.all_nil, hd, Bool.false_and,
        Bool.and_false, Bool.and_true, Bool.false_eq_true, if_false, exceptBind_error]
  · intro dTS dPSL dTMQ h1 h2 h3 hd1 hd2 hcsv
    simp only [_read_data, openDataset, readCsv, h1, h2, h3, hcsv, exceptBind_ok,
      mergeStacked, List.all_cons, List.all_nil, hd1, hd2, Bool.and_true, Bool.and_self,
      if_true, exceptBind_error]

/-- Witness for C8: a missing TS file and a latitude-extent conflict. -/
theorem read_data_errors_witness :
    _read_data envEmpty "t" = Except.error ("FileNotFoundError: " ++ ("t" ++ "_TS.nc")) ∧
    _read_data envMismatch "t" = Except.error "ValueError: conflicting sizes for dimension" := by
  constructor
  · exact (read_data_errors envEmpty "t").1 rfl
  · exact (read_data_errors envMismatch "t").2.2.2.1 dSmall dWide dSmall rfl rfl rfl
      (Or.inl rfl)

/-- C9: the loader is a deterministic function of the input files — two
calls over identical file contents return identical datasets and label
vectors; there is no caching and no mutation of the environment. -/
theorem read_data_deterministic {α : Type} (env1 env2 : DataEnv α) (p : String)
    (h : env1 = env2) :
    _read_data env1 p = _read_data env2 p := by
  rw [h]

/-- Witness for C9 on a concrete environment. -/
theorem read_data_deterministic_witness :
    _read_data envFull "t" = _read_data envFull "t" :=
  read_data_deterministic envFull envFull "t" rfl

end CaliforniaRainfall
